import Mathlib

/-!
Verification of the spreadsheet-export service (`src/main.py`).

The program fetches documents from a MongoDB collection with a field
projection, normalizes each record into a four-column row, and serializes
the rows into an Excel workbook returned as an HTTP attachment.

The embedding below models:
  * Python/BSON values reaching the normalization code (`Value`),
  * Python `datetime` together with its `isoformat` rendering (`PyDatetime`),
  * documents as association lists with `dict.get` semantics (`Doc`),
  * the per-record normalization of the `/spreadsheet` handler
    (`normalizeDoc`, `normalizeRegistration`),
  * the row-accumulation loop and DataFrame construction (`buildRows`,
    `exportDocument`),
  * the MongoDB read with its projection (`findUsers`),
  * the startup configuration check on `MONGO_URI` (`startup`).
-/

/-- A Python `datetime` value as it reaches the handler: calendar fields
only (the code never inspects microseconds or time zones). -/
structure PyDatetime where
  year : Nat
  month : Nat
  day : Nat
  hour : Nat
  minute : Nat
  second : Nat
deriving DecidableEq, Repr

/-- Zero-pad the decimal rendering of `n` to `width` digits, as Python's
datetime formatting does for each calendar field. -/
def padNum (width n : Nat) : String :=
  let s := toString n
  String.mk (List.replicate (width - s.length) '0') ++ s

/-- `datetime.isoformat()`: `YYYY-MM-DDTHH:MM:SS` (microseconds are zero
in this model, so Python omits them). -/
def PyDatetime.isoformat (t : PyDatetime) : String :=
  padNum 4 t.year ++ "-" ++ padNum 2 t.month ++ "-" ++ padNum 2 t.day ++ "T" ++
    padNum 2 t.hour ++ ":" ++ padNum 2 t.minute ++ ":" ++ padNum 2 t.second

/-- `str(datetime)`: same fields with a space separator. -/
def PyDatetime.strForm (t : PyDatetime) : String :=
  padNum 4 t.year ++ "-" ++ padNum 2 t.month ++ "-" ++ padNum 2 t.day ++ " " ++
    padNum 2 t.hour ++ ":" ++ padNum 2 t.minute ++ ":" ++ padNum 2 t.second

/-- Values stored in a fetched document: `None`, strings, integers,
booleans, and `datetime` objects (the kinds the normalization code
distinguishes or the spec mentions as possible `registration` types). -/
inductive Value where
  | vnull : Value
  | vstr : String → Value
  | vint : Int → Value
  | vbool : Bool → Value
  | vdatetime : PyDatetime → Value
deriving DecidableEq, Repr

/-- Python `str(...)` on the modelled values: `str(None) = "None"`,
strings unchanged, integers in decimal, `True`/`False` for booleans,
`datetime` with a space separator. -/
def pyStr : Value → String
  | Value.vnull => "None"
  | Value.vstr s => s
  | Value.vint n => toString n
  | Value.vbool b => if b then "True" else "False"
  | Value.vdatetime t => t.strForm

/-- A fetched document: a finite key-value mapping, modelled as an
association list (Python dicts have unique keys; lookup takes the first
match). -/
abbrev Doc := List (String × Value)

/-- Key lookup in a document: `some v` when the key is present. -/
def Doc.lookupVal : Doc → String → Option Value
  | [], _ => Option.none
  | p :: ps, k => if p.1 = k then some p.2 else Doc.lookupVal ps k

/-- Python `dict.get(key, default)`: the stored value if the key is
present, otherwise the default. -/
def Doc.get (d : Doc) (k : String) (dflt : Value) : Value :=
  (Doc.lookupVal d k).getD dflt

/-- The `registration` branch of the handler (src/main.py lines 70-73):
`isinstance(reg, datetime)` selects `reg.isoformat()`; otherwise
`str(reg) if reg not in (None, "") else ""`.  Membership in `(None, "")`
is Python equality with `None` or with the empty string, which across the
modelled types holds exactly for `None` and `""`. -/
def normalizeRegistration (reg : Value) : String :=
  match reg with
  | Value.vdatetime t => t.isoformat
  | _ => if reg = Value.vnull ∨ reg = Value.vstr "" then "" else pyStr reg

/-- One normalized row as the handler builds it: `email`, `fullname` and
`whatsapp` carry whatever `dict.get` returned (possibly not a string),
while `registration` is always the string computed by
`normalizeRegistration`. -/
structure Row where
  email : Value
  fullname : Value
  whatsapp : Value
  registration : String
deriving DecidableEq, Repr

/-- The loop body of the `/spreadsheet` handler (src/main.py lines 64-80)
applied to one fetched document. -/
def normalizeDoc (d : Doc) : Row :=
  { email := d.get "email" (Value.vstr "")
    fullname := d.get "fullname" (Value.vstr "")
    whatsapp := d.get "whatsapp" (Value.vstr "")
    registration := normalizeRegistration (d.get "registration" (Value.vstr "")) }

/-- The accumulation loop `rows = []; for doc in cursor: rows.append(...)`. -/
def buildRows : List Doc → List Row → List Row
  | [], acc => acc
  | d :: ds, acc => buildRows ds (acc ++ [normalizeDoc d])

/-- The list of rows produced for a fetched sequence. -/
def rowsOf (docs : List Doc) : List Row :=
  buildRows docs []

/-- The fixed column order passed to `pd.DataFrame(..., columns=...)`. -/
def columns : List String :=
  ["email", "fullname", "whatsapp", "registration"]

/-- The cells of a row in column order; the `registration` cell is the
string computed by normalization, wrapped back into a value. -/
def rowCells (r : Row) : List Value :=
  [r.email, r.fullname, r.whatsapp, Value.vstr r.registration]

/-- The in-memory spreadsheet before byte serialization: one sheet, a
header row, then the data rows (`df.to_excel(writer, index=False,
sheet_name="users")` writes the header and no index column). -/
structure ExportDocument where
  sheetName : String
  header : List String
  dataRows : List (List Value)
deriving DecidableEq, Repr

/-- DataFrame construction and Excel serialization of the handler
(src/main.py lines 83-88) applied to a fetched sequence. -/
def exportDocument (docs : List Doc) : ExportDocument :=
  { sheetName := "users"
    header := columns
    dataRows := (rowsOf docs).map rowCells }

/-- The keys the query projection includes (`{"email": 1, "fullname": 1,
"whatsapp": 1, "registration": 1, "_id": 0}`): MongoDB inclusion
projection keeps exactly the listed fields and here drops `_id`. -/
def projectionKeys : List String :=
  ["email", "fullname", "whatsapp", "registration"]

/-- The projection applied to one stored document. -/
def projectDoc (d : Doc) : Doc :=
  d.filter (fun p => projectionKeys.contains p.1)

/-- `collection.find(filter={}, projection=...)` (src/main.py lines
57-59): no filter, so every stored document is returned, each reduced by
the projection, in storage order. -/
def findUsers (coll : List Doc) : List Doc :=
  coll.map projectDoc

/-- The HTTP file response produced by the `/spreadsheet` handler. -/
structure HttpFileResponse where
  document : ExportDocument
  asAttachment : Bool
  downloadName : String
  mimetype : String
deriving DecidableEq, Repr

/-- The whole `/spreadsheet` handler as a function of the stored
collection. -/
def spreadsheet (coll : List Doc) : HttpFileResponse :=
  { document := exportDocument (findUsers coll)
    asAttachment := true
    downloadName := "users.xlsx"
    mimetype := "application/vnd.openxmlformats-officedocument.spreadsheetml.sheet" }

/-- The startup configuration read from the environment (src/main.py
lines 35-40): `MONGO_URI` is required and checked with Python truthiness
(`if not MONGO_URI: raise RuntimeError(...)`), so both an unset and an
empty value are fatal; `DB_NAME` and `COLLECTION_NAME` have defaults. -/
structure Config where
  mongoUri : String
  dbName : String
  collectionName : String
deriving DecidableEq, Repr

/-- Process startup as a function of the environment: `Except.error` is
the raised `RuntimeError` (the process never starts serving). -/
def startup (env : String → Option String) : Except String Config :=
  match env "MONGO_URI" with
  | Option.none => Except.error "MONGO_URI not set in environment (.env)"
  | some uri =>
    if uri = "" then Except.error "MONGO_URI not set in environment (.env)"
    else Except.ok
      { mongoUri := uri
        dbName := (env "DB_NAME").getD "test"
        collectionName := (env "COLLECTION_NAME").getD "users" }

/-- Modelled from the spec: the three-way `registration` policy of
section 4.2, stated over the optional stored value (`Option.none` models
a missing key) — date-time values render as ISO-8601; null, missing and
the empty string give the empty string; anything else is stringified. -/
def specRegistration : Option Value → String
  | some (Value.vdatetime t) => t.isoformat
  | Option.none => ""
  | some Value.vnull => ""
  | some v => if v = Value.vstr "" then "" else pyStr v

/-- The stored value for key `k`, if present, is a string (checked as a
boolean so witnesses can evaluate it). -/
def strOrAbsent (d : Doc) (k : String) : Bool :=
  match Doc.lookupVal d k with
  | some (Value.vstr _) => true
  | some _ => false
  | Option.none => true

/-! ## Helper lemmas -/

/-- Unrolling the accumulation loop: the loop produces the accumulator
followed by the normalization of each document in order. -/
theorem buildRows_append (ds : List Doc) (acc : List Row) :
    buildRows ds acc = acc ++ ds.map normalizeDoc := by
  induction ds generalizing acc with
  | nil => simp [buildRows]
  | cons d ds ih => simp [buildRows, ih]

/-- The row list is the element-wise normalization of the fetched list. -/
theorem rowsOf_eq_map (docs : List Doc) : rowsOf docs = docs.map normalizeDoc := by
  simp [rowsOf, buildRows_append]

/-- Every entry surviving the projection has one of the four requested
keys, and in particular is not the internal identifier. -/
theorem projectDoc_keys (c : Doc) :
    (projectDoc c).all (fun p => projectionKeys.contains p.1 && (p.1 != "_id")) = true := by
  rw [List.all_eq_true]
  intro p hp
  have h := List.of_mem_filter hp
  rw [Bool.and_eq_true]
  refine ⟨h, ?_⟩
  have hmem : p.1 ∈ projectionKeys := by simpa using h
  rw [bne_iff_ne]
  intro e
  rw [e] at hmem
  exact absurd hmem (by decide)

/-- When the stored value under `k` is a string or the key is absent,
`dict.get` with the empty-string default returns a string. -/
theorem get_string_of_strOrAbsent (d : Doc) (k : String)
    (h : strOrAbsent d k = true) :
    ∃ s, Doc.get d k (Value.vstr "") = Value.vstr s := by
  unfold strOrAbsent at h
  unfold Doc.get
  rcases hl : Doc.lookupVal d k with _ | v
  · exact ⟨"", rfl⟩
  · rw [hl] at h
    rcases v with _ | s | n | b | t <;> simp_all

/-! ## Claim theorems -/

/-- C1: for every raw record, the normalized `registration` field follows
the order-sensitive three-way policy: a date-time value renders as its
ISO-8601 string; otherwise a null, missing or empty value gives the empty
string; otherwise the generic stringification of the value is used. -/
theorem registration_matches_spec_policy (d : Doc) :
    (normalizeDoc d).registration = specRegistration (Doc.lookupVal d "registration") := by
  rcases h : Doc.lookupVal d "registration" with _ | v
  · simp [normalizeDoc, Doc.get, h, specRegistration, normalizeRegistration]
  · rcases v with _ | s | n | b | t <;>
      simp [normalizeDoc, Doc.get, h, specRegistration, normalizeRegistration, pyStr]

/-- C2 counterexample: a record holding a null `email` value produces a
row whose `email` field is the null value, not the empty string (and not
a string at all), refuting the claim that every row field is a string and
that null stored values map to the empty string. -/
theorem null_email_not_empty_string :
    (normalizeDoc [("email", Value.vnull)]).email = Value.vnull ∧
      (normalizeDoc [("email", Value.vnull)]).email ≠ Value.vstr "" := by
  constructor
  · rfl
  · decide

/-- C2 amended: when the stored `email`, `fullname` and `whatsapp` values
are strings or absent, every row field is a string; absence of any of the
four fields maps to the empty string, and a null stored `registration`
also maps to the empty string — but a present null contact value is
passed through unchanged (see the counterexample). -/
theorem row_fields_strings_for_string_inputs (d : Doc)
    (he : strOrAbsent d "email" = true)
    (hf : strOrAbsent d "fullname" = true)
    (hw : strOrAbsent d "whatsapp" = true) :
    (∃ s, (normalizeDoc d).email = Value.vstr s) ∧
    (∃ s, (normalizeDoc d).fullname = Value.vstr s) ∧
    (∃ s, (normalizeDoc d).whatsapp = Value.vstr s) ∧
    (Doc.lookupVal d "email" = Option.none → (normalizeDoc d).email = Value.vstr "") ∧
    (Doc.lookupVal d "fullname" = Option.none → (normalizeDoc d).fullname = Value.vstr "") ∧
    (Doc.lookupVal d "whatsapp" = Option.none → (normalizeDoc d).whatsapp = Value.vstr "") ∧
    (Doc.lookupVal d "registration" = Option.none → (normalizeDoc d).registration = "") ∧
    (Doc.lookupVal d "registration" = some Value.vnull → (normalizeDoc d).registration = "") := by
  refine ⟨get_string_of_strOrAbsent d "email" he,
    get_string_of_strOrAbsent d "fullname" hf,
    get_string_of_strOrAbsent d "whatsapp" hw,
    fun h => ?_, fun h => ?_, fun h => ?_, fun h => ?_, fun h => ?_⟩ <;>
      simp [normalizeDoc, Doc.get, h, normalizeRegistration]

/-- Witness for the amended C2 at a concrete record. -/
theorem row_fields_strings_for_string_inputs_witness :
    strOrAbsent [("email", Value.vstr "a@x.com")] "email" = true ∧
      (∃ s, (normalizeDoc [("email", Value.vstr "a@x.com")]).email = Value.vstr s) := by
  refine ⟨by decide, ?_⟩
  exact (row_fields_strings_for_string_inputs [("email", Value.vstr "a@x.com")]
    (by decide) (by decide) (by decide)).1

/-- C3: the export document has exactly one data row per fetched record,
in the same order, under the fixed column header. -/
theorem export_rows_match_fetch_order (docs : List Doc) :
    (exportDocument docs).dataRows.length = docs.length ∧
    (exportDocument docs).dataRows = docs.map (fun d => rowCells (normalizeDoc d)) ∧
    (exportDocument docs).header = ["email", "fullname", "whatsapp", "registration"] := by
  refine ⟨?_, ?_, rfl⟩ <;> simp [exportDocument, rowsOf_eq_map]

/-- C4: when `email`, `fullname` or `whatsapp` is absent from the raw
record, the corresponding row field is the empty string. -/
theorem missing_contact_fields_empty (d : Doc) :
    (Doc.lookupVal d "email" = Option.none → (normalizeDoc d).email = Value.vstr "") ∧
    (Doc.lookupVal d "fullname" = Option.none → (normalizeDoc d).fullname = Value.vstr "") ∧
    (Doc.lookupVal d "whatsapp" = Option.none → (normalizeDoc d).whatsapp = Value.vstr "") := by
  refine ⟨fun h => ?_, fun h => ?_, fun h => ?_⟩ <;> simp [normalizeDoc, Doc.get, h]

/-- Witness for C4 at the empty record. -/
theorem missing_contact_fields_empty_witness :
    (normalizeDoc ([] : Doc)).email = Value.vstr "" ∧
    (normalizeDoc ([] : Doc)).fullname = Value.vstr "" ∧
    (normalizeDoc ([] : Doc)).whatsapp = Value.vstr "" :=
  ⟨(missing_contact_fields_empty []).1 rfl, (missing_contact_fields_empty []).2.1 rfl,
    (missing_contact_fields_empty []).2.2 rfl⟩

/-- C5: an empty fetched sequence yields an export with the header row
only and zero data rows (stated through the full handler on an empty
collection). -/
theorem empty_collection_header_only :
    (spreadsheet []).document.dataRows = [] ∧
    (spreadsheet []).document.header = ["email", "fullname", "whatsapp", "registration"] :=
  ⟨rfl, rfl⟩

/-- C6: the read uses no filter — the result has one document per stored
document — and the projection leaves only the four requested keys, never
the internal identifier `_id`. -/
theorem find_full_scan_projected (coll : List Doc) :
    (findUsers coll).length = coll.length ∧
    ((findUsers coll).all fun d =>
      d.all fun p => projectionKeys.contains p.1 && (p.1 != "_id")) = true := by
  constructor
  · simp [findUsers]
  · rw [List.all_eq_true]
    intro d hd
    rcases List.mem_map.mp hd with ⟨c, _, rfl⟩
    exact projectDoc_keys c

/-- C7: a missing `MONGO_URI` in the environment makes startup fail with
the fatal configuration error, before any request is served. -/
theorem missing_mongo_uri_fatal (env : String → Option String)
    (h : env "MONGO_URI" = Option.none) :
    startup env = Except.error "MONGO_URI not set in environment (.env)" := by
  simp [startup, h]

/-- Witness for C7 on the empty environment. -/
theorem missing_mongo_uri_fatal_witness :
    startup (fun _ => Option.none) = Except.error "MONGO_URI not set in environment (.env)" :=
  missing_mongo_uri_fatal (fun _ => Option.none) rfl

/-- C8: a present `email`, `fullname` or `whatsapp` value — null or of
any other type — is passed into the row unchanged; the empty-string
default applies only to absent keys. -/
theorem present_contact_values_pass_through (d : Doc) (v : Value) :
    (Doc.lookupVal d "email" = some v → (normalizeDoc d).email = v) ∧
    (Doc.lookupVal d "fullname" = some v → (normalizeDoc d).fullname = v) ∧
    (Doc.lookupVal d "whatsapp" = some v → (normalizeDoc d).whatsapp = v) := by
  refine ⟨fun h => ?_, fun h => ?_, fun h => ?_⟩ <;> simp [normalizeDoc, Doc.get, h]

/-- Witness for C8: a stored null `email` stays null in the row. -/
theorem present_contact_values_pass_through_witness :
    (normalizeDoc [("email", Value.vnull)]).email = Value.vnull :=
  (present_contact_values_pass_through [("email", Value.vnull)] Value.vnull).1 (by decide)

/-- C9: whatever the stored `registration` value (or its absence), the
`registration` cell of the produced row is a string value. -/
theorem registration_cell_always_string (d : Doc) :
    ∃ s : String, (rowCells (normalizeDoc d))[3]? = some (Value.vstr s) :=
  ⟨(normalizeDoc d).registration, rfl⟩

/-- C10: tabulation is deterministic and element-wise — the row list is
the pointwise normalization of the input list, so equal inputs give equal
outputs, and processing a concatenation concatenates the independent
results (no state is carried across records). -/
theorem tabulation_deterministic_elementwise (docs docs2 : List Doc) :
    rowsOf docs = docs.map normalizeDoc ∧
    rowsOf (docs ++ docs2) = rowsOf docs ++ rowsOf docs2 := by
  refine ⟨rowsOf_eq_map docs, ?_⟩
  simp [rowsOf_eq_map]
